import Mathlib

/-!
Verification of `qidian_book_reviews_scrape.py`.

The script scrapes paragraph-level reader comments of a Qidian web novel.
This file gives a shallow embedding of the request layer
(`_make_request`, lines 234-276), the per-segment pagination
(`get_segment_comments`, lines 314-344), the catalog flattening
(`get_all_chapters`, lines 278-299), the credential acquirer
(`init_tokens_via_browser`, lines 127-208) and the orchestrator
(`scrape_book_reviews`, lines 434-596), and proves the behavioural
properties stated about them.

External interactions (HTTP responses, refresh outcomes, browser events,
file readability) are supplied by explicit environment records, so all
definitions are executable and every concrete scenario evaluates.
-/


/-- The fields of a parsed JSON envelope that the control flow inspects:
the numeric `code` field (absent when the JSON object has no `code` key)
and the `data.list` payload, with each comment record abstracted to an
opaque `Nat`. -/
structure RespData where
  code : Option Int
  list : List Nat
deriving DecidableEq, Repr

/-- Outcome of one `session.get` call as the Python code observes it:
either the call raised (`exc`, any `Exception`), or a response arrived
with flags for an empty body and for HTTP status 202, and a body that
either fails JSON parsing (`none`, i.e. `json.JSONDecodeError`) or parses
to a `RespData`. -/
inductive HttpResult where
  | exc : HttpResult
  | resp (emptyText : Bool) (status202 : Bool) (body : Option RespData) : HttpResult
deriving DecidableEq, Repr

/-- Environment for the request layer: the outcome of each successive
`session.get` (indexed by how many GETs were issued before it) and the
outcome of each successive `refresh_tokens` call. -/
structure ReqEnv where
  responses : Nat → HttpResult
  refreshOk : Nat → Bool

/-- `_make_request(url, params, referer, bookId, retry=False)`
(lines 234-276 with `retry=False`): every refresh branch is disabled, so
the call issues exactly one GET and returns.  Note that when the parsed
body carries an expired-session code, the guard
`data.get('code') in [-1, 1001, 1002] and retry` is false and the code
falls through to `return data`.  State is `(gets issued, refreshes
attempted)`. -/
def make_request_noretry (env : ReqEnv) (s : Nat × Nat) :
    Option RespData × (Nat × Nat) :=
  match env.responses s.1 with
  | .exc => (none, (s.1 + 1, s.2))
  | .resp emptyText status202 body =>
    if emptyText || status202 then (none, (s.1 + 1, s.2))
    else
      match body with
      | none => (none, (s.1 + 1, s.2))
      | some data => (some data, (s.1 + 1, s.2))

/-- `_make_request(url, params, referer, bookId, retry=True)`
(lines 234-276, the default): on an empty body or status 202, on an
expired-session code in `{-1, 1001, 1002}`, or on malformed JSON, it
calls `refresh_tokens`; when the refresh succeeds it re-issues the call
with `retry=False` (embedded as `make_request_noretry`), otherwise it
returns `None`.  A raised `Exception` returns `None` without
refreshing. -/
def make_request (env : ReqEnv) (s : Nat × Nat) :
    Option RespData × (Nat × Nat) :=
  match env.responses s.1 with
  | .exc => (none, (s.1 + 1, s.2))
  | .resp emptyText status202 body =>
    if emptyText || status202 then
      if env.refreshOk s.2 then make_request_noretry env (s.1 + 1, s.2 + 1)
      else (none, (s.1 + 1, s.2 + 1))
    else
      match body with
      | none =>
        if env.refreshOk s.2 then make_request_noretry env (s.1 + 1, s.2 + 1)
        else (none, (s.1 + 1, s.2 + 1))
      | some data =>
        if data.code = some (-1) ∨ data.code = some 1001 ∨ data.code = some 1002 then
          if env.refreshOk s.2 then make_request_noretry env (s.1 + 1, s.2 + 1)
          else (none, (s.1 + 1, s.2 + 1))
        else (some data, (s.1 + 1, s.2))

/-- `_make_request` with the `retry` flag passed explicitly, as callers
in the source supply it (`retry=(page == 1)` in `get_segment_comments`). -/
def make_request_with (env : ReqEnv) (retry : Bool) (s : Nat × Nat) :
    Option RespData × (Nat × Nat) :=
  if retry then make_request env s else make_request_noretry env s

/-- An endpoint that always answers with the expired-session code `-1`
and a refresh that always succeeds: the scenario of the one-shot retry
property. -/
def envExpired : ReqEnv :=
  { responses := fun _ => .resp false false (some (RespData.mk (some (-1)) []))
    refreshOk := fun _ => true }

/-- The `while True` loop of `get_segment_comments` (lines 320-342).
Arguments mirror the Python locals: the current `page`, the request
state, the accumulated `comments`, plus a ghost log recording for each
issued request the pair `(page, retry flag)` — the source passes
`retry=(page == 1)`.  `fuel` bounds the number of iterations modelled;
`none` means the budget was exhausted before the loop exited, so a
`some` result certifies termination.  The loop extends the accumulator
and advances the page while the envelope has `code == 0` and a non-empty
`data.list`, and breaks (returning the comments gathered so far) on an
empty list, a non-zero or missing code, or a `None` result. -/
def get_segment_comments_loop (env : ReqEnv) :
    Nat → Nat → Nat × Nat → List Nat → List (Nat × Bool) →
    Option (List Nat × (Nat × Nat) × List (Nat × Bool))
  | 0, _, _, _, _ => none
  | fuel + 1, page, s, comments, log =>
    let retry := page == 1
    let res := make_request_with env retry s
    let log1 := log ++ [(page, retry)]
    match res.1 with
    | some data =>
      if data.code = some 0 then
        if data.list = [] then some (comments, res.2, log1)
        else get_segment_comments_loop env fuel (page + 1) res.2 (comments ++ data.list) log1
      else some (comments, res.2, log1)
    | none => some (comments, res.2, log1)

/-- `get_segment_comments(bookId, chapterId, segmentId, referer)`
(lines 314-344): starts at page 1 with a fresh request state and no
accumulated comments. -/
def get_segment_comments (env : ReqEnv) (fuel : Nat) :
    Option (List Nat × (Nat × Nat) × List (Nat × Bool)) :=
  get_segment_comments_loop env fuel 1 (0, 0) [] []

/-- Concatenation of the pages `p, p+1, ..., p+M-1` served by a
page-indexed endpoint, in page order. -/
def pagesConcat (pages : Nat → List Nat) : Nat → Nat → List Nat
  | _, 0 => []
  | p, M + 1 => pages p ++ pagesConcat pages (p + 1) M

/-- The request log produced by paginating from page `p` through page
`p + M`: each request records its page and the `page == 1` retry flag. -/
def pageLogFrom : Nat → Nat → List (Nat × Bool)
  | p, 0 => [(p, p == 1)]
  | p, M + 1 => (p, p == 1) :: pageLogFrom (p + 1) M

/-- An endpoint whose `k`-th GET answers page `k+1` with `code = 0` and
payload `pages (k+1)`. -/
def envPaged (pages : Nat → List Nat) : ReqEnv :=
  { responses := fun k => .resp false false (some (RespData.mk (some 0) (pages (k + 1))))
    refreshOk := fun _ => true }

/-- Concrete paged endpoint for C2: page 1 holds one comment, every
later page is empty. -/
def pagesOne : Nat → List Nat := fun p => if p = 1 then [7] else []

/-- A result of `_make_request` that `get_segment_comments` treats as a
failed page: a `None`, or an envelope whose `code` is not 0 (including
the expired-session envelope a non-retrying call passes through). -/
def isFailure : Option RespData → Bool
  | none => true
  | some d => d.code != some 0

/-- A chapter entry of the catalog response (`vol['cs']` items): `id`,
display name `cN`, optional update timestamp `uT`. -/
structure RawChapter where
  id : Nat
  cN : String
  uT : Option String
deriving DecidableEq, Repr

/-- A volume of the catalog response (`data['vs']` items): the optional
access-level field `vS` and the chapter list `cs`. -/
structure Volume where
  vS : Option Int
  cs : List RawChapter
deriving DecidableEq, Repr

/-- A chapter record as built by `get_all_chapters` (lines 293-298). -/
structure Chapter where
  chapterId : Nat
  chapterName : String
  updateTime : String
  isFree : Bool
deriving DecidableEq, Repr

/-- One appended record of `get_all_chapters` (lines 293-298):
`isFree` is `vol.get('vS', 1) == 0`. -/
def mkChapter (vol : Volume) (rc : RawChapter) : Chapter :=
  { chapterId := rc.id
    chapterName := rc.cN
    updateTime := rc.uT.getD ""
    isFree := vol.vS.getD 1 == 0 }

/-- `get_all_chapters(bookId)` (lines 278-299) after the catalog call:
`none` stands for a missing response or a non-zero catalog `code`
(`if not data or data.get('code') != 0: return []`); otherwise the
nested volume-to-chapter structure is flattened in order. -/
def get_all_chapters (catalog : Option (List Volume)) : List Chapter :=
  match catalog with
  | none => []
  | some vols => vols.flatMap fun vol => vol.cs.map fun rc => mkChapter vol rc

/-- The free-chapter selection of `scrape_book_reviews` (lines 462-468):
keep the chapters flagged free, unless none is, in which case all
chapters are used. -/
def scheduledChapters (chapters : List Chapter) : List Chapter :=
  let free := chapters.filter fun ch => ch.isFree
  if free.isEmpty then chapters else free

/-- A persisted comment row: the server record (abstracted to an opaque
`body`) plus the two fields stitched in by the loop (lines 539-543),
the owning chapter's identifier and name. -/
structure Row where
  chapterId : String
  chapterName : String
  body : Nat
deriving DecidableEq, Repr

/-- The chapters output directory: file name without its `.csv` suffix
(always a chapter id, the `f.replace('.csv', '')` of lines 472-474)
mapped to the rows of the file; `[]` is an empty marker file. -/
abbrev Fs := List (String × List Row)

/-- Writing `<cid>.csv` (`to_csv`, lines 503, 551, 557): replaces any
previous file of the same name. -/
def fsWrite (fs : Fs) (cid : String) (rows : List Row) : Fs :=
  (cid, rows) :: fs.filter fun f => f.1 != cid

/-- Server-side outcome of one `reviewSummary` call, before the code
collapses it: `failed` when `_make_request` returned `None` or a
non-zero code, `ok segs` when it returned code 0 with segment list
`segs` (possibly empty). -/
inductive SummaryResult where
  | failed : SummaryResult
  | ok (segs : List Nat) : SummaryResult
deriving DecidableEq, Repr

/-- `get_chapter_comment_summary` (lines 301-312) returns a DataFrame of
segments, and collapses a failed call and an empty segment list into the
same empty DataFrame (`return pd.DataFrame()`). -/
def summaryDF : SummaryResult → List Nat
  | .failed => []
  | .ok segs => segs

/-- How one segment's pagination ended: `complete` when the loop stopped
on an empty page, `truncated` when a page request failed mid-way; either
way `get_segment_comments` returns the comments accumulated so far. -/
inductive SegOutcome where
  | complete (comments : List Nat) : SegOutcome
  | truncated (comments : List Nat) : SegOutcome
deriving DecidableEq, Repr

/-- The comments `get_segment_comments` hands back for a segment. -/
def SegOutcome.comments : SegOutcome → List Nat
  | .complete cs => cs
  | .truncated cs => cs

/-- Whether the segment's pagination reached the empty page. -/
def SegOutcome.isComplete : SegOutcome → Bool
  | .complete _ => true
  | .truncated _ => false

/-- Whether the chapter's loop body (lines 493-559) raises an exception:
`noExc` runs to completion, `midBody` raises after the summary call but
before the chapter file is written (the writes are the last statements
of the body), so the `except` handlers at lines 561-570 skip the
chapter. -/
inductive ExcPoint where
  | noExc : ExcPoint
  | midBody : ExcPoint
deriving DecidableEq, Repr

/-- Environment describing everything one chapter's processing can
encounter: the summary outcome, the pagination outcome of each segment
id, and whether the body raises. -/
structure ChapterBehavior where
  summary : SummaryResult
  segOutcomes : Nat → SegOutcome
  exc : ExcPoint

/-- Externally visible actions of `scrape_book_reviews` tracked by the
claims: directory creation, the browser token acquisition, the catalog
request, and the per-chapter summary and segment-comment requests. -/
inductive Effect where
  | mkdirs : Effect
  | browserInit (ok : Bool) : Effect
  | catalogReq : Effect
  | summaryReq (cid : String) : Effect
  | commentReq (cid : String) (seg : Nat) : Effect
deriving DecidableEq, Repr

/-- Whether an effect is a summary or comment fetch for chapter `cid`. -/
def Effect.touches : Effect → String → Bool
  | .summaryReq c, cid => c == cid
  | .commentReq c _, cid => c == cid
  | _, _ => false

/-- The two fields stitched into every comment of a chapter
(lines 539-543). -/
def stitchRows (cid cname : String) (comments : List Nat) : List Row :=
  comments.map fun b => Row.mk cid cname b

/-- The body of the per-chapter loop (lines 493-559) for one non-skipped
chapter: fetch the summary; when it is empty write an empty marker file;
otherwise fetch every segment's comments, stitch in the chapter fields,
and write the collected rows (an empty collection still writes an empty
marker, lines 548-557).  A mid-body exception leaves the filesystem
untouched.  Returns the updated directory and the fetches issued. -/
def processChapter (bhv : ChapterBehavior) (cid cname : String) (fs : Fs) :
    Fs × List Effect :=
  if (summaryDF bhv.summary).isEmpty then
    (fsWrite fs cid [], [Effect.summaryReq cid])
  else
    match bhv.exc with
    | .midBody => (fs, [Effect.summaryReq cid])
    | .noExc =>
      (fsWrite fs cid ((summaryDF bhv.summary).flatMap fun s =>
          stitchRows cid cname (bhv.segOutcomes s).comments),
       Effect.summaryReq cid :: (summaryDF bhv.summary).map fun s => Effect.commentReq cid s)

/-- The chapter loop of `scrape_book_reviews` (lines 482-570): iterate
the scheduled `(chapterId, chapterName)` pairs, skipping every id in the
`completed` set scanned from the chapters directory (lines 487-489). -/
def runChapters (bhvs : String → ChapterBehavior) (completed : List String) :
    List (String × String) → Fs → Fs × List Effect
  | [], fs => (fs, [])
  | (cid, cname) :: rest, fs =>
    if completed.contains cid then runChapters bhvs completed rest fs
    else
      (
        (runChapters bhvs completed rest (processChapter (bhvs cid) cid cname fs).1).1,
        (processChapter (bhvs cid) cid cname fs).2 ++
          (runChapters bhvs completed rest (processChapter (bhvs cid) cid cname fs).1).2)

/-- The spec's notion of a fully enumerated chapter (C6): the summary
call succeeded, no exception occurred, and every listed segment's
pagination ran to the empty page.  The code does not track this; the
definition follows the spec's words for comparison. -/
def fullyEnumeratedSpec (bhv : ChapterBehavior) : Bool :=
  match bhv.summary with
  | .failed => false
  | .ok segs => bhv.exc == ExcPoint.noExc && segs.all fun s => (bhv.segOutcomes s).isComplete

/-- A chapter whose summary request fails: `get_chapter_comment_summary`
collapses this into an empty DataFrame, so the loop writes the empty
marker file as if the chapter had no comments. -/
def bhvFailed : ChapterBehavior :=
  { summary := .failed, segOutcomes := fun _ => .complete [], exc := .noExc }

/-- The merge phase of `scrape_book_reviews` (lines 574-584): read every
chapter file in directory order; an unreadable file (`pd.read_csv`
raising) is logged and skipped, an empty DataFrame is not appended, any
other file contributes its rows. -/
def collectReviews (readable : String → Bool) : Fs → List (List Row)
  | [] => []
  | f :: rest =>
    if readable f.1 then
      if f.2.isEmpty then collectReviews readable rest
      else f.2 :: collectReviews readable rest
    else collectReviews readable rest

/-- The tail of the merge (lines 586-596): when at least one chapter
file contributed rows, concatenate them (`pd.concat`) into the aggregate
file and return its records (`some`); otherwise write nothing and return
the empty result (`none`). -/
def mergeResult (readable : String → Bool) (fs : Fs) : Option (List Row) :=
  if (collectReviews readable fs).isEmpty then none
  else some (collectReviews readable fs).flatten

/-- Environment of one whole run: whether the initial token acquisition
succeeds, the catalog response, each chapter's behaviour, which chapter
files are readable at merge time, and the pre-existing chapter files. -/
structure ScrapeEnv where
  tokensOk : Bool
  catalog : Option (List Volume)
  bhvs : String → ChapterBehavior
  readable : String → Bool
  fs0 : Fs

/-- The scheduled `(chapterId, chapterName)` pairs of a run
(lines 462-468 and 482-484, with `str(chapter['chapterId'])`). -/
def schedPairs (env : ScrapeEnv) : List (String × String) :=
  (scheduledChapters (get_all_chapters env.catalog)).map fun ch =>
    (toString ch.chapterId, ch.chapterName)

/-- `scrape_book_reviews(bookId, output_dir, debug)` (lines 434-596):
create the output directories, acquire tokens (abort with `[]` on
failure), fetch the catalog (abort with `[]` when empty), run the
chapter loop against the completed set scanned from the existing files,
then merge.  Returns the records returned to the caller, the final
chapters directory, whether the aggregate file was written, and the
effect trace. -/
def scrape_book_reviews (env : ScrapeEnv) : List Row × Fs × Bool × List Effect :=
  if env.tokensOk = false then
    ([], env.fs0, false, [Effect.mkdirs, Effect.browserInit false])
  else
    if (get_all_chapters env.catalog).isEmpty then
      ([], env.fs0, false, [Effect.mkdirs, Effect.browserInit true, Effect.catalogReq])
    else
      ((mergeResult env.readable
          (runChapters env.bhvs (env.fs0.map Prod.fst) (schedPairs env) env.fs0).1).getD [],
       (runChapters env.bhvs (env.fs0.map Prod.fst) (schedPairs env) env.fs0).1,
       (mergeResult env.readable
          (runChapters env.bhvs (env.fs0.map Prod.fst) (schedPairs env) env.fs0).1).isSome,
       [Effect.mkdirs, Effect.browserInit true, Effect.catalogReq] ++
         (runChapters env.bhvs (env.fs0.map Prod.fst) (schedPairs env) env.fs0).2)

/-- Chapter files with row counts 0, 3 and 5 for the merge example. -/
def fs035 : Fs :=
  [("a", []),
   ("b", [Row.mk "b" "nb" 1, Row.mk "b" "nb" 2, Row.mk "b" "nb" 3]),
   ("c", [Row.mk "c" "nc" 4, Row.mk "c" "nc" 5, Row.mk "c" "nc" 6,
          Row.mk "c" "nc" 7, Row.mk "c" "nc" 8])]

/-- Environment for the browser-driven token acquisition: whether the
`k`-th driver creation and the `k`-th page navigation raise, whether the
`k`-th `_extract_tokens` attempt finds the `_csrfToken` cookie, and
whether the `k`-th `_check_captcha` inspection reports a challenge.
`_extract_tokens`, `_check_captcha` and `_close_driver` swallow their
own exceptions (bare `except` blocks), so only creation and navigation
can raise. -/
structure BrowserEnv where
  createOk : Nat → Bool
  navOk : Nat → Bool
  extractOk : Nat → Bool
  captchaSeen : Nat → Bool

/-- `_create_driver` (lines 60-85): spawning the browser may raise. -/
def createDriver (env : BrowserEnv) (k : Nat) : Except Unit Unit :=
  if env.createOk k then .ok () else .error ()

/-- `driver.get(book_url)`: navigation may raise. -/
def navigate (env : BrowserEnv) (k : Nat) : Except Unit Unit :=
  if env.navOk k then .ok () else .error ()

/-- The polling loop of the visible phase (lines 188-199): while less
than `max_wait = 120` seconds have elapsed, try `_extract_tokens`, then
sleep 2 seconds.  Returns whether the token appeared, the next
extraction index, and the elapsed time at exit. -/
def pollTokens (env : BrowserEnv) (k : Nat) (elapsed : Nat) : Bool × Nat × Nat :=
  if h : elapsed < 120 then
    if env.extractOk k then (true, k, elapsed)
    else pollTokens env (k + 1) (elapsed + 2)
  else (false, k, elapsed)
termination_by 120 - elapsed
decreasing_by omega

/-- One headless attempt (lines 141-146 and 160-166): create the
driver, navigate, wait, extract. -/
def headlessAttempt (env : BrowserEnv) (k : Nat) : Except Unit Bool :=
  match createDriver env k with
  | .error e => .error e
  | .ok _ =>
    match navigate env k with
    | .error e => .error e
    | .ok _ => .ok (env.extractOk k)

/-- The headless phase of `init_tokens_via_browser` (lines 139-175):
first attempt; on a missing token, a `_check_captcha` hit skips straight
to the visible phase, otherwise one longer-settle retry happens; any
token found returns success, and in every other case (including a raised
exception, caught at lines 171-175) control falls through to the visible
phase.  `ok (some true)` is success, `ok none` falls through, `error`
is the caught exception (also falling through). -/
def headlessPhase (env : BrowserEnv) : Except Unit (Option Bool) :=
  match headlessAttempt env 0 with
  | .error e => .error e
  | .ok true => .ok (some true)
  | .ok false =>
    if env.captchaSeen 0 then .ok none
    else
      match headlessAttempt env 1 with
      | .error e => .error e
      | .ok true => .ok (some true)
      | .ok false => .ok none

/-- The visible phase (lines 184-208): open a visible browser, navigate,
poll for up to 120 seconds.  Its `try` body can raise only in creation
and navigation; the poll loop itself is total. -/
def visiblePhase (env : BrowserEnv) : Except Unit Bool :=
  match createDriver env 2 with
  | .error e => .error e
  | .ok _ =>
    match navigate env 2 with
    | .error e => .error e
    | .ok _ => .ok (pollTokens env 2 0).1

/-- `init_tokens_via_browser(bookId)` (lines 127-208): headless phase,
then — unless a token was already found — the visible phase, whose
`except Exception` handler (lines 203-206) turns any raise into the
failure return `False`.  The result is `Except.ok` on every path:
no exception propagates to the caller. -/
def init_tokens_via_browser (env : BrowserEnv) : Except Unit Bool :=
  match headlessPhase env with
  | .ok (some b) => .ok b
  | .ok none =>
    match visiblePhase env with
    | .ok b => .ok b
    | .error _ => .ok false
  | .error _ =>
    match visiblePhase env with
    | .ok b => .ok b
    | .error _ => .ok false

/-- A browser session in which the token never appears but nothing
raises: the bounded-timeout failure scenario. -/
def envNoToken : BrowserEnv :=
  { createOk := fun _ => true
    navOk := fun _ => true
    extractOk := fun _ => false
    captchaSeen := fun _ => false }

theorem make_request_noretry_state (env : ReqEnv) (s : Nat × Nat) :
    (make_request_noretry env s).2 = (s.1 + 1, s.2) := by
  unfold make_request_noretry
  rcases env.responses s.1 with _ | ⟨emptyText, status202, body⟩
  · rfl
  · by_cases h : (emptyText || status202) = true
    · simp [h]
    · rcases body with _ | data <;> simp [h]

theorem make_request_state_le (env : ReqEnv) (s : Nat × Nat) :
    (make_request env s).2.1 ≤ s.1 + 2 ∧ (make_request env s).2.2 ≤ s.2 + 1 := by
  unfold make_request
  rcases env.responses s.1 with _ | ⟨emptyText, status202, body⟩
  · simp
  · by_cases h : (emptyText || status202) = true
    · by_cases hr : env.refreshOk s.2 = true
      · simp [h, hr, make_request_noretry_state]
      · simp [h, hr]
    · rcases body with _ | data
      · by_cases hr : env.refreshOk s.2 = true
        · simp [h, hr, make_request_noretry_state]
        · simp [h, hr]
      · by_cases hc : data.code = some (-1) ∨ data.code = some 1001 ∨ data.code = some 1002
        · by_cases hr : env.refreshOk s.2 = true
          · simp [h, hc, hr, make_request_noretry_state]
          · simp [h, hc, hr]
        · simp [h, hc]

/-- C1 counterexample.  The claim asserts that against an endpoint that
always reports an expired-session code the caller receives a null
result.  In the code, the retried call (with `retry=False`) falls
through `data.get('code') in [-1, 1001, 1002] and retry` and returns the
parsed envelope itself: at state `(0, 0)` against `envExpired`, exactly
one refresh and one retried GET occur (final state `(2, 1)`), but the
result is `some` of the error envelope, not `none`. -/
theorem claim_C1_counterexample :
    make_request envExpired (0, 0) =
      (some (RespData.mk (some (-1)) []), (2, 1)) ∧
    (make_request envExpired (0, 0)).1 ≠ none := by
  refine ⟨rfl, ?_⟩
  decide

/-- C1 (amended).  The refresh-and-retry recursion depth is exactly one:
(1) a `retry=True` call issues at most two GETs and at most one refresh;
(2) the retried call (`retry=False`) issues exactly one GET and never
refreshes; (3) against an endpoint that always reports expired-session
code `-1` with a succeeding refresh, exactly one refresh and one retried
GET occur and the caller receives the retried call's error-code envelope
(a non-success value, since its code is not 0) rather than looping; the
claim's further assertion that the caller receives a null result in this
scenario is refuted by `claim_C1_counterexample`. -/
theorem claim_C1_one_shot_retry :
    (∀ (env : ReqEnv) (s : Nat × Nat),
      (make_request env s).2.1 ≤ s.1 + 2 ∧ (make_request env s).2.2 ≤ s.2 + 1) ∧
    (∀ (env : ReqEnv) (s : Nat × Nat),
      (make_request_noretry env s).2 = (s.1 + 1, s.2)) ∧
    (∀ (env : ReqEnv) (pl : Nat → List Nat) (s : Nat × Nat),
      (∀ k, env.responses k = .resp false false (some (RespData.mk (some (-1)) (pl k)))) →
      (∀ k, env.refreshOk k = true) →
      make_request env s =
        (some (RespData.mk (some (-1)) (pl (s.1 + 1))), (s.1 + 2, s.2 + 1))) := by
  refine ⟨make_request_state_le, make_request_noretry_state, ?_⟩
  intro env pl s hresp hrefresh
  unfold make_request
  rw [hresp s.1]
  simp only [Bool.or_self, Bool.false_or, if_false, hrefresh s.2, if_true]
  unfold make_request_noretry
  rw [hresp (s.1 + 1)]
  simp

/-- Witness for C1's amended theorem at a concrete environment. -/
theorem claim_C1_one_shot_retry_witness :
    make_request envExpired (3, 5) =
      (some (RespData.mk (some (-1)) []), (5, 6)) := by
  have h := claim_C1_one_shot_retry.2.2 envExpired (fun _ => []) (3, 5)
    (fun _ => rfl) (fun _ => rfl)
  exact h

theorem make_request_with_paged (env : ReqEnv) (pages : Nat → List Nat)
    (hresp : ∀ k, env.responses k = .resp false false (some (RespData.mk (some 0) (pages (k + 1)))))
    (retry : Bool) (s : Nat × Nat) :
    make_request_with env retry s =
      (some (RespData.mk (some 0) (pages (s.1 + 1))), (s.1 + 1, s.2)) := by
  rcases retry with _ | _
  · unfold make_request_with make_request_noretry
    rw [hresp s.1]
    simp
  · unfold make_request_with make_request
    rw [hresp s.1]
    simp

theorem get_segment_comments_loop_paged (env : ReqEnv) (pages : Nat → List Nat)
    (hresp : ∀ k, env.responses k = .resp false false (some (RespData.mk (some 0) (pages (k + 1))))) :
    ∀ (M page c r fuel : Nat) (acc : List Nat) (log : List (Nat × Bool)),
      page = c + 1 →
      (∀ i, i < M → pages (page + i) ≠ []) →
      pages (page + M) = [] →
      M + 1 ≤ fuel →
      get_segment_comments_loop env fuel page (c, r) acc log =
        some (acc ++ pagesConcat pages page M, (c + M + 1, r), log ++ pageLogFrom page M) := by
  intro M
  induction M with
  | zero =>
    intro page c r fuel acc log hpage _ hempty hfuel
    rcases fuel with _ | fuel
    · omega
    have hpc : pages (c + 1) = [] := by
      rw [hpage] at hempty
      simpa using hempty
    subst hpage
    unfold get_segment_comments_loop
    simp [make_request_with_paged env pages hresp, hpc, pagesConcat, pageLogFrom]
  | succ M ih =>
    intro page c r fuel acc log hpage hfull hempty hfuel
    rcases fuel with _ | fuel
    · omega
    have hpc : pages (c + 1) ≠ [] := by
      have h0 := hfull 0 (Nat.succ_pos M)
      rw [hpage] at h0
      simpa using h0
    subst hpage
    have hrec := ih (c + 1 + 1) (c + 1) r fuel (acc ++ pages (c + 1))
      (log ++ [(c + 1, c + 1 == 1)])
      rfl
      (fun i hi => by
        have := hfull (i + 1) (by omega)
        have harith : c + 1 + (i + 1) = c + 1 + 1 + i := by omega
        rwa [harith] at this)
      (by
        have harith : c + 1 + (M + 1) = c + 1 + 1 + M := by omega
        rwa [harith] at hempty)
      (by omega)
    unfold get_segment_comments_loop
    simp only [make_request_with_paged env pages hresp]
    simp only [hpc, if_false, if_pos rfl]
    have hcount : c + 1 + M + 1 = c + (M + 1) + 1 := by omega
    rw [hcount] at hrec
    rw [hrec]
    simp [pagesConcat, pageLogFrom, List.append_assoc]

theorem gsc_loop_log_flags (env : ReqEnv) :
    ∀ (fuel page : Nat) (s : Nat × Nat) (acc : List Nat) (log : List (Nat × Bool))
      (out : List Nat × (Nat × Nat) × List (Nat × Bool)),
      get_segment_comments_loop env fuel page s acc log = some out →
      (∀ pb ∈ log, pb.2 = (pb.1 == 1)) →
      ∀ pb ∈ out.2.2, pb.2 = (pb.1 == 1) := by
  intro fuel
  induction fuel with
  | zero =>
    intro page s acc log out h
    simp [get_segment_comments_loop] at h
  | succ fuel ih =>
    intro page s acc log out h hlog
    have hlog1 : ∀ pb ∈ log ++ [(page, page == 1)], pb.2 = (pb.1 == 1) := by
      intro pb hpb
      rcases List.mem_append.mp hpb with h1 | h2
      · exact hlog pb h1
      · rw [List.mem_singleton] at h2
        rw [h2]
    simp only [get_segment_comments_loop] at h
    split at h
    · split at h
      · split at h
        · cases h
          exact hlog1
        · exact ih _ _ _ _ _ h hlog1
      · cases h
        exact hlog1
    · cases h
      exact hlog1

theorem gsc_loop_r_const (env : ReqEnv) :
    ∀ (fuel page : Nat) (s : Nat × Nat) (acc : List Nat) (log : List (Nat × Bool))
      (out : List Nat × (Nat × Nat) × List (Nat × Bool)),
      2 ≤ page →
      get_segment_comments_loop env fuel page s acc log = some out →
      out.2.1.2 = s.2 := by
  intro fuel
  induction fuel with
  | zero =>
    intro page s acc log out _ h
    simp [get_segment_comments_loop] at h
  | succ fuel ih =>
    intro page s acc log out hpage h
    have hb : (page == 1) = false := by
      have h1 : page ≠ 1 := by omega
      exact beq_eq_false_iff_ne.mpr h1
    simp only [get_segment_comments_loop, hb, make_request_with, Bool.false_eq_true,
      if_false] at h
    have hstate := make_request_noretry_state env s
    split at h
    · split at h
      · split at h
        · cases h
          simp [hstate]
        · have := ih _ _ _ _ _ (by omega) h
          rw [this, hstate]
      · cases h
        simp [hstate]
    · cases h
      simp [hstate]

theorem gsc_loop_page1_refresh_bound (env : ReqEnv) :
    ∀ (fuel : Nat) (s : Nat × Nat) (acc : List Nat) (log : List (Nat × Bool))
      (out : List Nat × (Nat × Nat) × List (Nat × Bool)),
      get_segment_comments_loop env fuel 1 s acc log = some out →
      out.2.1.2 ≤ s.2 + 1 := by
  intro fuel s acc log out h
  rcases fuel with _ | fuel
  · simp [get_segment_comments_loop] at h
  have hmr := (make_request_state_le env s).2
  simp only [get_segment_comments_loop, make_request_with, beq_self_eq_true, if_pos,
    if_true] at h
  split at h
  · split at h
    · split at h
      · cases h
        exact hmr
      · have := gsc_loop_r_const env fuel 2 _ _ _ _ (le_refl 2) h
        rw [this]
        exact hmr
    · cases h
      exact hmr
  · cases h
    exact hmr

theorem gsc_loop_failure_stops (env : ReqEnv) (fuel page : Nat) (s : Nat × Nat)
    (acc : List Nat) (log : List (Nat × Bool))
    (hpage : 2 ≤ page)
    (hfail : isFailure (make_request_noretry env s).1 = true) :
    get_segment_comments_loop env (fuel + 1) page s acc log =
      some (acc, (s.1 + 1, s.2), log ++ [(page, false)]) := by
  have hb : (page == 1) = false := by
    have h1 : page ≠ 1 := by omega
    exact beq_eq_false_iff_ne.mpr h1
  have hstate := make_request_noretry_state env s
  simp only [get_segment_comments_loop, hb, make_request_with, Bool.false_eq_true, if_false]
  rcases hres : (make_request_noretry env s).1 with _ | data
  · simp [hres, hstate]
  · rw [hres] at hfail
    have hcode : ¬ data.code = some 0 := by
      simpa [isFailure] using hfail
    simp [hres, hcode, hstate]

/-- C3.  Within one segment's pagination: (1) every issued request
carries the retry flag `page == 1`, so only the page-1 request enables
the credential-refresh retry path; (2) pagination started at page 1
performs at most one refresh in total; (3) a failed request on a page
greater than 1 ends pagination immediately, returning the comments
accumulated so far, with the request state showing one more GET and no
refresh. -/
theorem claim_C3_only_first_page_retries :
    (∀ (env : ReqEnv) (fuel : Nat)
      (out : List Nat × (Nat × Nat) × List (Nat × Bool)),
      get_segment_comments env fuel = some out →
      ∀ pb ∈ out.2.2, pb.2 = (pb.1 == 1)) ∧
    (∀ (env : ReqEnv) (fuel : Nat) (s : Nat × Nat) (acc : List Nat)
      (log : List (Nat × Bool)) (out : List Nat × (Nat × Nat) × List (Nat × Bool)),
      get_segment_comments_loop env fuel 1 s acc log = some out →
      out.2.1.2 ≤ s.2 + 1) ∧
    (∀ (env : ReqEnv) (fuel page : Nat) (s : Nat × Nat) (acc : List Nat)
      (log : List (Nat × Bool)),
      2 ≤ page →
      isFailure (make_request_noretry env s).1 = true →
      get_segment_comments_loop env (fuel + 1) page s acc log =
        some (acc, (s.1 + 1, s.2), log ++ [(page, false)])) := by
  refine ⟨?_, ?_, ?_⟩
  · intro env fuel out h
    exact gsc_loop_log_flags env fuel 1 (0, 0) [] [] out h (by simp)
  · intro env fuel s acc log out h
    exact gsc_loop_page1_refresh_bound env fuel s acc log out h
  · intro env fuel page s acc log hpage hfail
    exact gsc_loop_failure_stops env fuel page s acc log hpage hfail

/-- Witness for C3 at concrete inputs: the two-page run of
`claim_C2_counterexample`'s endpoint for parts (1) and (2), and the
always-expired endpoint probed at page 2 for part (3). -/
theorem claim_C3_only_first_page_retries_witness :
    (∀ pb ∈ (([7], ((2 : Nat), (0 : Nat)), [((1 : Nat), true), ((2 : Nat), false)]) :
        List Nat × (Nat × Nat) × List (Nat × Bool)).2.2, pb.2 = (pb.1 == 1)) ∧
    (0 : Nat) ≤ 0 + 1 ∧
    get_segment_comments_loop envExpired 3 2 (0, 0) [5] [] =
      some ([5], (1, 0), [(2, false)]) := by
  refine ⟨?_, ?_, ?_⟩
  · exact claim_C3_only_first_page_retries.1 (envPaged pagesOne) 5 _ rfl
  · exact claim_C3_only_first_page_retries.2.1 (envPaged pagesOne) 5 (0, 0) [] []
      ([7], (2, 0), [(1, true), (2, false)]) rfl
  · exact claim_C3_only_first_page_retries.2.2 envExpired 2 2 (0, 0) [5] []
      (by decide) (by decide)

/-- C2 counterexample.  The claim asserts that against an endpoint
returning N full pages then one empty page no (N+1)-th request is made.
At N = 1 (`pagesOne`): the loop accumulates the one full page but issues
two requests — the second being the one that observes the empty page —
so an (N+1)-th request is made. -/
theorem claim_C2_counterexample :
    get_segment_comments (envPaged pagesOne) 5 =
      some ([7], (2, 0), [(1, true), (2, false)]) ∧ ¬ (2 ≤ 1) := by
  constructor
  · rfl
  · decide

/-- C2 (amended).  For every endpoint behaviour that returns N
successive full pages followed by one empty page, the pagination
terminates, accumulates exactly the comments of those N pages in page
order, issues exactly N+1 requests (the last being the one that observes
the empty page) and no request after that; the claim's assertion that no
(N+1)-th request is made is refuted by `claim_C2_counterexample`. -/
theorem claim_C2_pagination_terminates (env : ReqEnv) (pages : Nat → List Nat)
    (N fuel : Nat)
    (hresp : ∀ k, env.responses k = .resp false false (some (RespData.mk (some 0) (pages (k + 1)))))
    (hfull : ∀ i, i < N → pages (1 + i) ≠ [])
    (hempty : pages (1 + N) = [])
    (hfuel : N + 1 ≤ fuel) :
    get_segment_comments env fuel =
      some (pagesConcat pages 1 N, (N + 1, 0), pageLogFrom 1 N) := by
  unfold get_segment_comments
  have h := get_segment_comments_loop_paged env pages hresp N 1 0 0 fuel [] []
    rfl hfull hempty hfuel
  simpa using h

/-- Witness for C2's amended theorem: one full page then an empty page,
evaluated concretely. -/
theorem claim_C2_pagination_terminates_witness :
    get_segment_comments (envPaged pagesOne) 5 =
      some (pagesConcat pagesOne 1 1, (2, 0), pageLogFrom 1 1) := by
  exact claim_C2_pagination_terminates (envPaged pagesOne) pagesOne 1 5
    (fun _ => rfl) (by decide) (by decide) (by decide)

/-- C4.  (1) A flattened chapter is flagged free exactly when its owning
volume's `vS` equals the free sentinel 0 (a missing `vS` defaults to 1,
hence not free); (2) the flattening yields exactly the chapters of the
nested structure; (3) when at least one chapter is flagged free exactly
the free chapters are scheduled, and when none is, all chapters are
scheduled. -/
theorem claim_C4_free_chapter_filtering :
    (∀ (vol : Volume) (rc : RawChapter),
      (mkChapter vol rc).isFree = true ↔ vol.vS = some 0) ∧
    (∀ (vols : List Volume) (ch : Chapter),
      ch ∈ get_all_chapters (some vols) ↔
        ∃ vol ∈ vols, ∃ rc ∈ vol.cs, ch = mkChapter vol rc) ∧
    (∀ chapters : List Chapter,
      ((∃ ch ∈ chapters, ch.isFree = true) →
        scheduledChapters chapters = chapters.filter fun ch => ch.isFree) ∧
      ((∀ ch ∈ chapters, ch.isFree = false) →
        scheduledChapters chapters = chapters)) := by
  refine ⟨?_, ?_, ?_⟩
  · intro vol rc
    rcases vol with ⟨vS, cs⟩
    rcases vS with _ | v
    · simp [mkChapter]
    · simp [mkChapter]
  · intro vols ch
    simp only [get_all_chapters, List.mem_flatMap, List.mem_map]
    constructor
    · rintro ⟨vol, hvol, rc, hrc, hch⟩
      exact ⟨vol, hvol, rc, hrc, hch.symm⟩
    · rintro ⟨vol, hvol, rc, hrc, hch⟩
      exact ⟨vol, hvol, rc, hrc, hch.symm⟩
  · intro chapters
    constructor
    · rintro ⟨ch, hmem, hfree⟩
      have hne : chapters.filter (fun ch => ch.isFree) ≠ [] := by
        intro hnil
        have := List.mem_filter.mpr ⟨hmem, hfree⟩
        rw [hnil] at this
        exact List.not_mem_nil ch this
      unfold scheduledChapters
      rw [if_neg (by simpa [List.isEmpty_iff] using hne)]
    · intro hall
      have hnil : chapters.filter (fun ch => ch.isFree) = [] := by
        rw [List.filter_eq_nil_iff]
        intro ch hmem
        simp [hall ch hmem]
      unfold scheduledChapters
      rw [hnil]
      simp

/-- Witness for C4 at a concrete two-volume catalog: volume 0 is free
(`vS = 0`), volume 1 is paid (`vS = 1`). -/
theorem claim_C4_free_chapter_filtering_witness :
    ((mkChapter (Volume.mk (some 0) []) (RawChapter.mk 11 "a" none)).isFree = true ↔
      (Volume.mk (some 0) (([] : List RawChapter))).vS = some 0) ∧
    (mkChapter (Volume.mk (some 0) []) (RawChapter.mk 11 "a" none) ∈
      get_all_chapters (some [Volume.mk (some 0) [RawChapter.mk 11 "a" none],
        Volume.mk (some 1) [RawChapter.mk 12 "b" none]]) ↔
      ∃ vol ∈ [Volume.mk (some 0) [RawChapter.mk 11 "a" none],
        Volume.mk (some 1) [RawChapter.mk 12 "b" none]], ∃ rc ∈ vol.cs,
        mkChapter (Volume.mk (some 0) []) (RawChapter.mk 11 "a" none) = mkChapter vol rc) ∧
    scheduledChapters [Chapter.mk 11 "a" "" true, Chapter.mk 12 "b" "" false] =
      List.filter (fun ch => ch.isFree) [Chapter.mk 11 "a" "" true, Chapter.mk 12 "b" "" false] := by
  refine ⟨?_, ?_, ?_⟩
  · exact claim_C4_free_chapter_filtering.1 (Volume.mk (some 0) []) (RawChapter.mk 11 "a" none)
  · exact claim_C4_free_chapter_filtering.2.1
      [Volume.mk (some 0) [RawChapter.mk 11 "a" none], Volume.mk (some 1) [RawChapter.mk 12 "b" none]]
      (mkChapter (Volume.mk (some 0) []) (RawChapter.mk 11 "a" none))
  · exact (claim_C4_free_chapter_filtering.2.2
      [Chapter.mk 11 "a" "" true, Chapter.mk 12 "b" "" false]).1
      ⟨Chapter.mk 11 "a" "" true, by simp, rfl⟩

theorem fs_lookup_filter_ne (cid c : String) (h : cid ≠ c) :
    ∀ fs : Fs, (fs.filter fun f => f.1 != c).lookup cid = fs.lookup cid := by
  intro fs
  induction fs with
  | nil => rfl
  | cons f t ih =>
    rcases f with ⟨k, v⟩
    by_cases hk : k = c
    · have h1 : (k != c) = false := by simp [hk]
      have h2 : (cid == k) = false := by
        rw [hk]
        exact beq_eq_false_iff_ne.mpr h
      simp [List.filter_cons, h1, List.lookup, h2, ih]
    · have h1 : (k != c) = true := by simp [hk]
      by_cases hc : cid = k
      · simp [List.filter_cons, h1, List.lookup, hc]
      · have h2 : (cid == k) = false := beq_eq_false_iff_ne.mpr hc
        simp [List.filter_cons, h1, List.lookup, h2, ih]

theorem fsWrite_lookup_self (fs : Fs) (cid : String) (rows : List Row) :
    (fsWrite fs cid rows).lookup cid = some rows := by
  simp [fsWrite, List.lookup]

theorem fsWrite_lookup_other (fs : Fs) (c cid : String) (rows : List Row)
    (h : cid ≠ c) :
    (fsWrite fs c rows).lookup cid = fs.lookup cid := by
  have h2 : (cid == c) = false := beq_eq_false_iff_ne.mpr h
  simp [fsWrite, List.lookup, h2, fs_lookup_filter_ne cid c h fs]

theorem processChapter_lookup_other (bhv : ChapterBehavior) (c cname cid : String)
    (h : cid ≠ c) (fs : Fs) :
    (processChapter bhv c cname fs).1.lookup cid = fs.lookup cid := by
  unfold processChapter
  split
  · exact fsWrite_lookup_other fs c cid [] h
  · split
    · rfl
    · exact fsWrite_lookup_other fs c cid _ h

theorem processChapter_events_touch (bhv : ChapterBehavior) (c cname cid : String)
    (h : cid ≠ c) (fs : Fs) :
    ∀ e ∈ (processChapter bhv c cname fs).2, e.touches cid = false := by
  have hb : (c == cid) = false := beq_eq_false_iff_ne.mpr (Ne.symm h)
  unfold processChapter
  split
  · intro e he
    simp only [List.mem_singleton] at he
    rw [he]
    simp [Effect.touches, hb]
  · split
    · intro e he
      simp only [List.mem_singleton] at he
      rw [he]
      simp [Effect.touches, hb]
    · intro e he
      rcases List.mem_cons.mp he with h1 | h1
      · rw [h1]
        simp [Effect.touches, hb]
      · rcases List.mem_map.mp h1 with ⟨s, _, hs⟩
        rw [← hs]
        simp [Effect.touches, hb]

theorem runChapters_skip_preserves (bhvs : String → ChapterBehavior)
    (completed : List String) (cid : String)
    (hmem : completed.contains cid = true) :
    ∀ (sched : List (String × String)) (fs : Fs),
      (runChapters bhvs completed sched fs).1.lookup cid = fs.lookup cid ∧
      ∀ e ∈ (runChapters bhvs completed sched fs).2, e.touches cid = false := by
  intro sched
  induction sched with
  | nil =>
    intro fs
    exact ⟨rfl, by simp [runChapters]⟩
  | cons hd rest ih =>
    intro fs
    rcases hd with ⟨c, cname⟩
    cases hcc : completed.contains c
    · have hne : cid ≠ c := by
        intro heq
        rw [heq] at hmem
        rw [hmem] at hcc
        exact Bool.true_eq_false.mp hcc
      simp only [runChapters, hcc, Bool.false_eq_true, if_false]
      constructor
      · rw [(ih (processChapter (bhvs c) c cname fs).1).1]
        exact processChapter_lookup_other (bhvs c) c cname cid hne fs
      · intro e he
        rcases List.mem_append.mp he with h1 | h1
        · exact processChapter_events_touch (bhvs c) c cname cid hne fs e h1
        · exact (ih (processChapter (bhvs c) c cname fs).1).2 e h1
    · simp only [runChapters, hcc, if_true]
      exact ih fs

/-- C5.  With the completed set scanned from the pre-existing chapter
files (their names minus `.csv`, which are exactly the keys of `fs0`),
any chapter id already present is skipped by the loop: no summary or
comment fetch of the whole run touches it, and its file's contents are
unchanged at the end of the run. -/
theorem claim_C5_resume_skips_completed (bhvs : String → ChapterBehavior)
    (sched : List (String × String)) (fs0 : Fs) (cid : String)
    (hmem : (fs0.map Prod.fst).contains cid = true) :
    (runChapters bhvs (fs0.map Prod.fst) sched fs0).1.lookup cid = fs0.lookup cid ∧
    ∀ e ∈ (runChapters bhvs (fs0.map Prod.fst) sched fs0).2, e.touches cid = false :=
  runChapters_skip_preserves bhvs (fs0.map Prod.fst) cid hmem sched fs0

/-- Witness for C5: chapter `7` already has a file; a run scheduling
chapters `7` and `8` leaves `7`'s file intact and touches it with no
fetch. -/
theorem claim_C5_resume_skips_completed_witness :
    (runChapters (fun _ => bhvFailed) ([("7", [Row.mk "7" "n" 1])].map Prod.fst)
        [("7", "x"), ("8", "y")] [("7", [Row.mk "7" "n" 1])]).1.lookup "7" =
      some [Row.mk "7" "n" 1] ∧
    ∀ e ∈ (runChapters (fun _ => bhvFailed) ([("7", [Row.mk "7" "n" 1])].map Prod.fst)
        [("7", "x"), ("8", "y")] [("7", [Row.mk "7" "n" 1])]).2, e.touches "7" = false := by
  exact claim_C5_resume_skips_completed (fun _ => bhvFailed)
    [("7", "x"), ("8", "y")] [("7", [Row.mk "7" "n" 1])] "7" (by decide)

/-- C6 counterexample.  The claim asserts a chapter file exists after
processing iff the chapter was fully enumerated.  For a chapter whose
summary request fails (`bhvFailed`), `get_chapter_comment_summary`
returns the same empty DataFrame as for a chapter with no comments, so
the loop writes the empty marker file even though nothing was
enumerated: the file exists but `fullyEnumeratedSpec` is false. -/
theorem claim_C6_counterexample :
    ¬ (((processChapter bhvFailed "1" "n" []).1.lookup "1" ≠ none) ↔
        fullyEnumeratedSpec bhvFailed = true) := by
  decide

/-- C6 (amended).  Starting from a directory without a file for `cid`,
the chapter file exists after processing iff the summary DataFrame was
empty (covering both a failed summary call and a chapter without
comments) or the body ran without an exception; in particular every
fully enumerated chapter gets a file, even with zero comments, but a
chapter whose summary call failed, or whose segment pagination was
truncated by a failed page request, also gets a file that a later run
will treat as done — refuting the only-if direction of the claim
(`claim_C6_counterexample`). -/
theorem claim_C6_marker_iff_no_exception (bhv : ChapterBehavior)
    (cid cname : String) (fs : Fs) (hfresh : fs.lookup cid = none) :
    (((processChapter bhv cid cname fs).1.lookup cid ≠ none) ↔
      (summaryDF bhv.summary = [] ∨ bhv.exc = ExcPoint.noExc)) ∧
    (fullyEnumeratedSpec bhv = true →
      (processChapter bhv cid cname fs).1.lookup cid ≠ none) := by
  have hmain : ((processChapter bhv cid cname fs).1.lookup cid ≠ none) ↔
      (summaryDF bhv.summary = [] ∨ bhv.exc = ExcPoint.noExc) := by
    unfold processChapter
    by_cases hs : (summaryDF bhv.summary).isEmpty = true
    · rw [if_pos hs]
      simp only [fsWrite_lookup_self]
      simp [List.isEmpty_iff.mp hs]
    · rw [if_neg hs]
      have hsne : ¬ summaryDF bhv.summary = [] := by
        intro h
        exact hs (List.isEmpty_iff.mpr h)
      cases hexc : bhv.exc
      · simp only [fsWrite_lookup_self]
        simp [hsne]
      · simp [hfresh, hsne]
  constructor
  · exact hmain
  · intro hfull
    rw [hmain]
    right
    unfold fullyEnumeratedSpec at hfull
    cases hsum : bhv.summary with
    | failed => rw [hsum] at hfull; cases hfull
    | ok segs =>
      rw [hsum] at hfull
      have := (Bool.and_eq_true _ _).mp hfull
      exact beq_iff_eq.mp this.1

/-- Witness for C6's amended theorem: a fully enumerated chapter with
zero comments gets a marker file in a fresh directory. -/
theorem claim_C6_marker_iff_no_exception_witness :
    (((processChapter (ChapterBehavior.mk (SummaryResult.ok [4]) (fun _ => SegOutcome.complete [])
        ExcPoint.noExc) "9" "n" []).1.lookup "9" ≠ none) ↔
      (summaryDF (SummaryResult.ok [4]) = [] ∨ ExcPoint.noExc = ExcPoint.noExc)) ∧
    (fullyEnumeratedSpec (ChapterBehavior.mk (SummaryResult.ok [4]) (fun _ => SegOutcome.complete [])
        ExcPoint.noExc) = true →
      (processChapter (ChapterBehavior.mk (SummaryResult.ok [4]) (fun _ => SegOutcome.complete [])
        ExcPoint.noExc) "9" "n" []).1.lookup "9" ≠ none) := by
  exact claim_C6_marker_iff_no_exception
    (ChapterBehavior.mk (SummaryResult.ok [4]) (fun _ => SegOutcome.complete []) ExcPoint.noExc)
    "9" "n" [] rfl

theorem collectReviews_flatten (readable : String → Bool) :
    ∀ fs : Fs, (collectReviews readable fs).flatten =
      (fs.filter fun f => readable f.1).flatMap Prod.snd := by
  intro fs
  induction fs with
  | nil => rfl
  | cons f rest ih =>
    by_cases hr : readable f.1 = true
    · by_cases he : f.2.isEmpty = true
      · have h2 : f.2 = [] := List.isEmpty_iff.mp he
        simp [collectReviews, hr, he, List.filter_cons, ih, h2]
      · simp [collectReviews, hr, he, List.filter_cons, ih]
    · simp [collectReviews, hr, List.filter_cons, ih]

/-- C7.  The merge concatenates exactly the rows of the readable chapter
files, in directory order: (1) the aggregate is the concatenation of the
readable files' row lists, so every row is kept verbatim together with
its `chapterId` and `chapterName` fields, and an unreadable file only
drops its own contribution; (2) the aggregate's row count is the sum of
the readable files' row counts; (3) concretely, readable files with row
counts 0, 3 and 5 yield exactly 8 aggregate rows. -/
theorem claim_C7_merge_concatenates :
    (∀ (readable : String → Bool) (fs : Fs),
      (collectReviews readable fs).flatten =
        (fs.filter fun f => readable f.1).flatMap Prod.snd) ∧
    (∀ (readable : String → Bool) (fs : Fs),
      ((collectReviews readable fs).flatten).length =
        (((fs.filter fun f => readable f.1).map fun f => f.2.length).sum)) ∧
    ((collectReviews (fun _ => true) fs035).flatten.length = 8 ∧
      (collectReviews (fun _ => true) fs035).flatten =
        fs035.flatMap Prod.snd) := by
  refine ⟨collectReviews_flatten, ?_, ?_⟩
  · intro readable fs
    rw [collectReviews_flatten]
    induction (fs.filter fun f => readable f.1) with
    | nil => rfl
    | cons f rest ih => simp [List.flatMap_cons, ih]
  · constructor
    · decide
    · decide

theorem collectReviews_nil_of_trivial (readable : String → Bool) :
    ∀ fs : Fs, (∀ f ∈ fs, readable f.1 = false ∨ f.2 = []) →
      collectReviews readable fs = [] := by
  intro fs
  induction fs with
  | nil => intro _; rfl
  | cons f rest ih =>
    intro h
    rcases h f (List.mem_cons_self f rest) with h1 | h1
    · simp [collectReviews, h1]
      exact ih fun g hg => h g (List.mem_cons_of_mem f hg)
    · have he : f.2.isEmpty = true := List.isEmpty_iff.mpr h1
      by_cases hr : readable f.1 = true
      · simp [collectReviews, hr, he]
        exact ih fun g hg => h g (List.mem_cons_of_mem f hg)
      · simp [collectReviews, hr]
        exact ih fun g hg => h g (List.mem_cons_of_mem f hg)

theorem collectReviews_ne_nil_source (readable : String → Bool) :
    ∀ fs : Fs, collectReviews readable fs ≠ [] →
      ∃ f ∈ fs, readable f.1 = true ∧ f.2 ≠ [] := by
  intro fs
  induction fs with
  | nil => intro h; exact absurd rfl h
  | cons f rest ih =>
    intro h
    by_cases hr : readable f.1 = true
    · by_cases he : f.2.isEmpty = true
      · simp only [collectReviews, hr, he, if_true] at h
        rcases ih h with ⟨g, hg, hgr⟩
        exact ⟨g, List.mem_cons_of_mem f hg, hgr⟩
      · refine ⟨f, List.mem_cons_self f rest, hr, ?_⟩
        intro hnil
        exact he (List.isEmpty_iff.mpr hnil)
    · have hrf : readable f.1 = false := by
        cases hx : readable f.1
        · rfl
        · exact absurd hx hr
      simp only [collectReviews, hrf, Bool.false_eq_true, if_false] at h
      rcases ih h with ⟨g, hg, hgr⟩
      exact ⟨g, List.mem_cons_of_mem f hg, hgr⟩

theorem collectReviews_mem_ne_nil (readable : String → Bool) :
    ∀ fs : Fs, ∀ l ∈ collectReviews readable fs, l ≠ [] := by
  intro fs
  induction fs with
  | nil => intro l hl; simp [collectReviews] at hl
  | cons f rest ih =>
    intro l hl
    by_cases hr : readable f.1 = true
    · by_cases he : f.2.isEmpty = true
      · simp only [collectReviews, hr, he, if_true] at hl
        exact ih l hl
      · simp only [collectReviews, hr, he, Bool.false_eq_true, if_false, if_true] at hl
        rcases List.mem_cons.mp hl with h1 | h1
        · rw [h1]
          intro hnil
          exact he (List.isEmpty_iff.mpr hnil)
        · exact ih l h1
    · have hrf : readable f.1 = false := by
        cases hx : readable f.1
        · rfl
        · exact absurd hx hr
      simp only [collectReviews, hrf, Bool.false_eq_true, if_false] at hl
      exact ih l hl

theorem mergeResult_some_ne_nil (readable : String → Bool) (fs : Fs)
    (agg : List Row) (h : mergeResult readable fs = some agg) : agg ≠ [] := by
  unfold mergeResult at h
  by_cases hc : (collectReviews readable fs).isEmpty = true
  · rw [if_pos hc] at h
    cases h
  · rw [if_neg hc] at h
    have hagg : agg = (collectReviews readable fs).flatten := (Option.some_inj.mp h).symm
    rw [hagg]
    intro hnil
    have hall := List.flatten_eq_nil_iff.mp hnil
    rcases List.exists_mem_of_ne_nil _ (fun he => hc (List.isEmpty_iff.mpr he)) with ⟨l, hl⟩
    exact collectReviews_mem_ne_nil readable fs l hl (hall l hl)

/-- C9.  (1) When every chapter file is unreadable or empty, the merge
produces no aggregate (`None`: no aggregate file is written) and
(3, over the whole run) `scrape_book_reviews` returns the empty record
list exactly when no aggregate file was written; (2) conversely an
aggregate is only produced when at least one readable chapter file has
at least one row, and is then itself non-empty. -/
theorem claim_C9_no_aggregate_when_all_empty :
    (∀ (readable : String → Bool) (fs : Fs),
      (∀ f ∈ fs, readable f.1 = false ∨ f.2 = []) →
      mergeResult readable fs = none) ∧
    (∀ (readable : String → Bool) (fs : Fs) (agg : List Row),
      mergeResult readable fs = some agg →
      (∃ f ∈ fs, readable f.1 = true ∧ f.2 ≠ []) ∧ agg ≠ []) ∧
    (∀ env : ScrapeEnv,
      ((scrape_book_reviews env).1 = [] ↔ (scrape_book_reviews env).2.2.1 = false)) := by
  refine ⟨?_, ?_, ?_⟩
  · intro readable fs h
    unfold mergeResult
    rw [collectReviews_nil_of_trivial readable fs h]
    rfl
  · intro readable fs agg h
    refine ⟨?_, mergeResult_some_ne_nil readable fs agg h⟩
    apply collectReviews_ne_nil_source readable fs
    intro hnil
    unfold mergeResult at h
    rw [hnil] at h
    cases h
  · intro env
    unfold scrape_book_reviews
    by_cases ht : env.tokensOk = false
    · simp [ht]
    · rw [if_neg ht]
      by_cases hc : (get_all_chapters env.catalog).isEmpty = true
      · simp [hc]
      · rw [if_neg hc]
        cases hm : mergeResult env.readable
            (runChapters env.bhvs (env.fs0.map Prod.fst) (schedPairs env) env.fs0).1 with
        | none => simp [hm]
        | some agg =>
          have hne := mergeResult_some_ne_nil env.readable _ agg hm
          simp [hm, hne]

/-- Witness for C9: a directory whose single file is unreadable yields
no aggregate; a directory with one one-row readable file yields a
non-empty aggregate; and a concrete run with failing tokens returns the
empty list with no aggregate written. -/
theorem claim_C9_no_aggregate_when_all_empty_witness :
    mergeResult (fun _ => false) [("a", [Row.mk "a" "n" 1])] = none ∧
    ((∃ f ∈ [("x", [Row.mk "x" "n" 1])], (fun (_ : String) => true) f.1 = true ∧ f.2 ≠ []) ∧
      [Row.mk "x" "n" 1] ≠ []) ∧
    ((scrape_book_reviews (ScrapeEnv.mk false none (fun _ => bhvFailed) (fun _ => true) [])).1 = [] ↔
      (scrape_book_reviews (ScrapeEnv.mk false none (fun _ => bhvFailed) (fun _ => true) [])).2.2.1 = false) := by
  refine ⟨?_, ?_, ?_⟩
  · exact claim_C9_no_aggregate_when_all_empty.1 (fun _ => false) [("a", [Row.mk "a" "n" 1])]
      (by intro f hf; left; rfl)
  · exact claim_C9_no_aggregate_when_all_empty.2.1 (fun _ => true) [("x", [Row.mk "x" "n" 1])]
      [Row.mk "x" "n" 1] rfl
  · exact claim_C9_no_aggregate_when_all_empty.2.2
      (ScrapeEnv.mk false none (fun _ => bhvFailed) (fun _ => true) [])

/-- C10.  When the initial token acquisition fails, or the chapter
catalog comes back empty (including a failed or error-code catalog
response), the run returns the empty list, leaves the chapter files
untouched, writes no aggregate, and its effect trace holds only the
directory creation, the browser attempt and (in the second case) the
catalog request — no summary or comment fetch and no file write. -/
theorem claim_C10_early_exit_effects (env : ScrapeEnv) :
    (env.tokensOk = false →
      scrape_book_reviews env =
        ([], env.fs0, false, [Effect.mkdirs, Effect.browserInit false])) ∧
    (env.tokensOk = true → get_all_chapters env.catalog = [] →
      scrape_book_reviews env =
        ([], env.fs0, false, [Effect.mkdirs, Effect.browserInit true, Effect.catalogReq])) := by
  constructor
  · intro h
    simp [scrape_book_reviews, h]
  · intro h hcat
    simp [scrape_book_reviews, h, hcat]

/-- Witness for C10: a run with failing tokens, and a run with good
tokens but a failed catalog response, at concrete environments. -/
theorem claim_C10_early_exit_effects_witness :
    scrape_book_reviews (ScrapeEnv.mk false none (fun _ => bhvFailed) (fun _ => true)
        [("7", [Row.mk "7" "n" 1])]) =
      ([], [("7", [Row.mk "7" "n" 1])], false,
        [Effect.mkdirs, Effect.browserInit false]) ∧
    scrape_book_reviews (ScrapeEnv.mk true none (fun _ => bhvFailed) (fun _ => true)
        [("7", [Row.mk "7" "n" 1])]) =
      ([], [("7", [Row.mk "7" "n" 1])], false,
        [Effect.mkdirs, Effect.browserInit true, Effect.catalogReq]) := by
  constructor
  · exact (claim_C10_early_exit_effects
      (ScrapeEnv.mk false none (fun _ => bhvFailed) (fun _ => true)
        [("7", [Row.mk "7" "n" 1])])).1 rfl
  · exact (claim_C10_early_exit_effects
      (ScrapeEnv.mk true none (fun _ => bhvFailed) (fun _ => true)
        [("7", [Row.mk "7" "n" 1])])).2 rfl rfl

theorem pollTokens_bounds (env : BrowserEnv) :
    ∀ (n e k : Nat), 120 - e ≤ n → e ≤ 120 → e % 2 = 0 →
      (pollTokens env k e).2.2 ≤ 120 ∧
      (pollTokens env k e).2.1 ≤ k + (121 - e) / 2 := by
  intro n
  induction n with
  | zero =>
    intro e k hn he hpar
    have he120 : e = 120 := by omega
    subst he120
    rw [pollTokens]
    simp
  | succ n ih =>
    intro e k hn he hpar
    by_cases h : e < 120
    · rw [pollTokens, dif_pos h]
      by_cases hx : env.extractOk k = true
      · rw [if_pos hx]
        constructor
        · show e ≤ 120
          omega
        · show k ≤ k + (121 - e) / 2
          omega
      · rw [if_neg hx]
        have h1 := ih (e + 2) (k + 1) (by omega) (by omega) (by omega)
        refine ⟨h1.1, ?_⟩
        calc (pollTokens env (k + 1) (e + 2)).2.1 ≤ (k + 1) + (121 - (e + 2)) / 2 := h1.2
          _ ≤ k + (121 - e) / 2 := by omega
    · rw [pollTokens, dif_neg h]
      exact ⟨by simpa using he, by simp⟩

theorem pollTokens_all_fail (env : BrowserEnv)
    (hfail : ∀ j, env.extractOk j = false) :
    ∀ (n e k : Nat), 120 - e ≤ n → (pollTokens env k e).1 = false := by
  intro n
  induction n with
  | zero =>
    intro e k hn
    rw [pollTokens, dif_neg (by omega)]
  | succ n ih =>
    intro e k hn
    by_cases h : e < 120
    · rw [pollTokens, dif_pos h, if_neg (by simp [hfail k])]
      exact ih (e + 2) (k + 1) (by omega)
    · rw [pollTokens, dif_neg h]

theorem headlessAttempt_all_fail (env : BrowserEnv)
    (hfail : ∀ j, env.extractOk j = false) (k : Nat) :
    headlessAttempt env k = .ok false ∨ ∃ e, headlessAttempt env k = .error e := by
  unfold headlessAttempt createDriver navigate
  by_cases h1 : env.createOk k = true
  · by_cases h2 : env.navOk k = true
    · left
      simp [h1, h2, hfail k]
    · right
      exact ⟨(), by simp [h1, h2]⟩
  · right
    exact ⟨(), by simp [h1]⟩

theorem init_tokens_never_raises (env : BrowserEnv) :
    ∃ b, init_tokens_via_browser env = Except.ok b := by
  unfold init_tokens_via_browser
  cases headlessPhase env with
  | ok r =>
    cases r with
    | some b => exact ⟨b, rfl⟩
    | none =>
      cases visiblePhase env with
      | ok b => exact ⟨b, rfl⟩
      | error e => exact ⟨false, rfl⟩
  | error e =>
    cases visiblePhase env with
    | ok b => exact ⟨b, rfl⟩
    | error e2 => exact ⟨false, rfl⟩

theorem init_tokens_all_fail (env : BrowserEnv)
    (hfail : ∀ j, env.extractOk j = false) :
    init_tokens_via_browser env = Except.ok false := by
  have hvis : visiblePhase env = .ok false ∨ ∃ e, visiblePhase env = .error e := by
    unfold visiblePhase createDriver navigate
    by_cases h1 : env.createOk 2 = true
    · by_cases h2 : env.navOk 2 = true
      · left
        simp only [h1, h2, if_true]
        rw [pollTokens_all_fail env hfail 120 0 2 (by omega)]
      · right
        exact ⟨(), by simp [h1, h2]⟩
    · right
      exact ⟨(), by simp [h1]⟩
  have hhead : headlessPhase env = .ok none ∨ ∃ e, headlessPhase env = .error e := by
    unfold headlessPhase
    rcases headlessAttempt_all_fail env hfail 0 with h0 | ⟨e, h0⟩
    · rw [h0]
      by_cases hc : env.captchaSeen 0 = true
      · left
        simp [hc]
      · rcases headlessAttempt_all_fail env hfail 1 with h1 | ⟨e, h1⟩
        · left
          simp [hc, h1]
        · right
          refine ⟨e, ?_⟩
          simp [hc, h1]
    · rw [h0]
      right
      exact ⟨e, rfl⟩
  unfold init_tokens_via_browser
  rcases hhead with hh | ⟨e, hh⟩ <;> rw [hh] <;>
    rcases hvis with hv | ⟨e2, hv⟩ <;> rw [hv]

/-- C8.  (1) For every outcome of the browser interactions,
`init_tokens_via_browser` returns a success or failure value and never
lets an exception escape; (2) the visible-phase polling loop, started at
elapsed time 0, exits with elapsed time at most 120 seconds and performs
at most 60 polls (fixed 2-second interval); (3) when the token never
appears, the whole acquirer returns the failure signal `False`. -/
theorem claim_C8_acquirer_never_raises :
    (∀ env : BrowserEnv, ∃ b, init_tokens_via_browser env = Except.ok b) ∧
    (∀ (env : BrowserEnv) (k : Nat),
      (pollTokens env k 0).2.2 ≤ 120 ∧ (pollTokens env k 0).2.1 ≤ k + 60) ∧
    (∀ env : BrowserEnv, (∀ j, env.extractOk j = false) →
      init_tokens_via_browser env = Except.ok false) := by
  refine ⟨init_tokens_never_raises, ?_, init_tokens_all_fail⟩
  intro env k
  have h := pollTokens_bounds env 120 0 k (by omega) (by omega) (by omega)
  exact ⟨h.1, by simpa using h.2⟩

/-- Witness for C8: the no-token, no-raise session times out and
returns the failure signal. -/
theorem claim_C8_acquirer_never_raises_witness :
    init_tokens_via_browser envNoToken = Except.ok false := by
  exact claim_C8_acquirer_never_raises.2.2 envNoToken (fun _ => rfl)
